import Mathlib

/-!
Verification of the one-ring runtime (one-ring-loop) against its specification.

The definitions below are a shallow embedding of the Python sources:
  - one_ring_loop/task.py        (CancelScope, Task, TaskGroup.set_error)
  - one_ring_loop/loop.py        (Loop._handle_cancellations, Loop._register_tasks,
                                  Loop._get_completed_operations)
  - one_ring_loop/cancellation.py (_FailAfter, fail_after, move_on_after)
  - one_ring_loop/timerio/__init__.py (sleep)
  - one_ring_loop/sync_primitives.py (Event, Semaphore, Lock)
  - one_ring_loop/streams/__init__.py (memory object channel)

Mutable Python state is passed explicitly; dict lookups become List.find?;
exceptions become explicit outcome variants.
-/

namespace OneRing

/-- Task ids and operation ids share one id space (see _get_new_operation_id). -/
abbrev TaskID := Nat

/-- Kernel operation descriptors relevant to the loop model: Sleep(time) is the
timeout op prepared by one_ring_core.operations.Sleep; cancelOp mirrors Cancel;
otherIo stands for any other IOOperation subclass (file/socket ops). -/
inductive IOOp where
  | sleep (time : Int)
  | cancelOp (targetIdentifier : Nat)
  | otherIo (tag : Nat)
  deriving DecidableEq

/-- The operations a task generator can yield: an IOOperation for the kernel, or
one of the loop-level sentinels WaitsOn / Park / Checkpoint from
one_ring_loop/operations.py. -/
inductive EventLoopOperation where
  | ioOp (op : IOOp)
  | waitsOn (taskIds : List TaskID)
  | park
  | checkpoint
  deriving DecidableEq

/-- CancelScope from task.py: shielded is fixed at construction, cancelled starts
false, task_ids holds the member tasks.  The Python set of task ids is embedded
as a list (only membership and iteration are used by the code). -/
structure CancelScope where
  shielded : Bool
  cancelled : Bool
  taskIds : List TaskID
  deriving DecidableEq

/-- CancelScope.cancel: sets cancelled = True and extends the loop-local cancel
queue with all member task ids (task.py lines 49-52).  The queue is passed in
and the updated scope and queue are returned. -/
def CancelScope.cancel (s : CancelScope) (cancelQueue : List TaskID) :
    CancelScope × List TaskID :=
  ({ s with cancelled := true }, cancelQueue ++ s.taskIds)

/-- The per-task fields of task.py's Task that the loop reads.  cancel_scopes is
a deque appended on the right, so the head is the outermost scope and the last
element is the innermost (current) scope.  The generator itself is not part of
this record; throwing into it is reported as an action by the loop model. -/
structure Task where
  taskId : TaskID
  cancelScopes : List CancelScope
  waiting : Bool
  awaitingOperation : Option EventLoopOperation
  started : Bool
  inFlightOpId : Option Nat
  deriving DecidableEq

/-- What Loop._handle_cancellations does for one queued task id: nothing, throw
Cancelled into the generator, or register a kernel Cancel for the in-flight op. -/
inductive CancelAction where
  | nothing
  | throwCancelled
  | registerCancel (targetOpId : Nat)
  deriving DecidableEq

/-- The scope walk of loop.py lines 77-79: iterate reversed(task.cancel_scopes)
(innermost first) and stop at the first scope that is cancelled or shielded. -/
def scopeWalk (cancelScopes : List CancelScope) : Option CancelScope :=
  cancelScopes.reverse.find? (fun s => s.cancelled || s.shielded)

/-- The body of Loop._handle_cancellations (loop.py lines 66-83) for one task
drained from the cancel queue: WaitsOn tasks are skipped; Park tasks get
Cancelled thrown directly (with no scope check); tasks waiting on kernel I/O
get a kernel Cancel registered only if the scope walk stops at a cancelled
scope (i.e. no shielded scope is reached first). -/
def cancelDeliveryAction (task : Task) : CancelAction :=
  match task.awaitingOperation with
  | some (.waitsOn _) => .nothing
  | some .park => .throwCancelled
  | _ =>
    if task.waiting then
      match task.inFlightOpId with
      | some opId =>
        match scopeWalk task.cancelScopes with
        | some s => if s.cancelled then .registerCancel opId else .nothing
        | none => .nothing
      | none => .nothing
    else .nothing

/-- Loop._handle_cancellations over the whole cancel queue: for each queued id,
look the task up in the tasks map (ids no longer present are skipped) and record
the delivery action decided against the state at entry. -/
def handleCancellations (tasks : List Task) (cancelQueue : List TaskID) :
    List (TaskID × CancelAction) :=
  cancelQueue.map (fun tid =>
    match tasks.find? (fun t => t.taskId == tid) with
    | none => (tid, .nothing)
    | some t => (tid, cancelDeliveryAction t))

/-- isinstance(op, WaitsOn) on a task's awaiting operation. -/
def isWaitsOn (op : Option EventLoopOperation) : Bool :=
  match op with
  | some (.waitsOn _) => true
  | _ => false

/-- The scope walk of Loop._register_tasks (loop.py lines 104-113), reported as
whether it throws Cancelled at least once: for each scope from the innermost
outwards, a cancelled scope throws (unless the operation is a WaitsOn), and a
shielded scope stops the walk after its own cancelled check.  The awaiting
operation is the one held when the walk starts; if the walk never throws, the
Python loop performs no mutation, so the false case is exact. -/
def registerWalkThrows (op : Option EventLoopOperation) :
    List CancelScope → Bool
  | [] => false
  | s :: rest =>
    if s.cancelled && !(isWaitsOn op) then true
    else if s.shielded then false
    else registerWalkThrows op rest

/-- Whether Loop._register_tasks throws Cancelled into the given task when it
re-checks the shielded/cancelled chain before registering its operation. -/
def registerThrowDecision (task : Task) : Bool :=
  registerWalkThrows task.awaitingOperation task.cancelScopes.reverse

/-- A typed completion as returned by IOWorker.wait / IOWorker.peek: the
user_data (operation id) plus whether the result is an OSError with
errno ECANCELED (the only property _drive_completed_tasks inspects). -/
structure IOCompletion where
  userData : Nat
  ecanceled : Bool
  deriving DecidableEq

/-- Outcome of Loop._get_completed_operations: either the Deadlock failure or
the list of completions collected this tick. -/
inductive ReapOutcome where
  | deadlock
  | reaped (completions : List IOCompletion)
  deriving DecidableEq

/-- isinstance(t.awaiting_operation, WaitsOn | Park) from loop.py line 147. -/
def isWaitsOnOrPark (op : Option EventLoopOperation) : Bool :=
  match op with
  | some (.waitsOn _) => true
  | some .park => true
  | _ => false

/-- Loop._get_completed_operations (loop.py lines 140-161).  The worker is
modelled by the list of completions currently available from the kernel, oldest
first: wait() blocks until one is available and returns it (none models the
blocked loop when nothing ever arrives); peek() returns the next available
completion or None, so the peek-until-None loop drains the whole list.
If every task is waiting: all tasks on WaitsOn/Park raises Deadlock, otherwise
wait() is called for a single completion.  Only when some task is not waiting
does the code peek repeatedly until empty. -/
def getCompletedOperations (tasks : List Task) (available : List IOCompletion) :
    Option ReapOutcome :=
  if tasks.all (·.waiting) then
    if tasks.all (fun t => isWaitsOnOrPark t.awaitingOperation) then
      some .deadlock
    else
      match available with
      | [] => none
      | c :: _ => some (.reaped [c])
  else
    some (.reaped available)

/-- Exceptions as the task-group logic distinguishes them: Cancelled versus
everything else (tagged to tell instances apart). -/
inductive TaskExc where
  | cancelled
  | other (tag : Nat)
  deriving DecidableEq

/-- isinstance(exc, Cancelled). -/
def TaskExc.isCancelled (e : TaskExc) : Bool :=
  match e with
  | .cancelled => true
  | .other _ => false

/-- The TaskGroup fields used by set_error and exit: the collected child error
list and the group's common cancel scope (task.py lines 198-205). -/
structure TaskGroupSt where
  errors : List TaskExc
  cancelScope : CancelScope
  deriving DecidableEq

/-- TaskGroup.set_error (task.py lines 238-245): a Cancelled is dropped when the
error list is already non-empty; otherwise the exception is appended and the
group's cancel scope is cancelled (extending the cancel queue). -/
def TaskGroupSt.setError (g : TaskGroupSt) (cancelQueue : List TaskID)
    (exc : TaskExc) : TaskGroupSt × List TaskID :=
  if !g.errors.isEmpty && exc.isCancelled then
    (g, cancelQueue)
  else
    let g2 : TaskGroupSt := { g with errors := g.errors ++ [exc] }
    let p := g2.cancelScope.cancel cancelQueue
    ({ g2 with cancelScope := p.1 }, p.2)

/-- The aggregate raised by TaskGroup.exit (task.py lines 229-232): if the error
list is non-empty, a BaseExceptionGroup carrying exactly those errors. -/
def TaskGroupSt.exitAggregate (g : TaskGroupSt) : Option (List TaskExc) :=
  if g.errors.isEmpty then none else some g.errors

/-- The _FailAfter fields (cancellation.py lines 19-30). -/
structure FailAfterState where
  delay : Int
  finished : Bool
  deriving DecidableEq

/-- Task.current_cancel_scope (task.py lines 166-171): the last element of the
scope deque, i.e. the innermost scope; none models the RuntimeError on an empty
stack. -/
def currentCancelScope (cancelScopes : List CancelScope) : Option CancelScope :=
  cancelScopes.getLast?

/-- _FailAfter.start (cancellation.py lines 41-46): reset finished, capture the
calling task's current cancel scope, and spawn the background cancellation task
against that captured scope.  No scope is created or pushed: the task's scope
stack is left untouched, so the returned scope is one that already existed. -/
def failAfterStart (delay : Int) (cancelScopes : List CancelScope) :
    FailAfterState × Option CancelScope :=
  ({ delay := delay, finished := false }, currentCancelScope cancelScopes)

/-- _FailAfter._cancellation_task after its sleep completes (cancellation.py
lines 37-39): if the block has not finished, cancel the captured scope. -/
def cancellationTaskFires (fa : FailAfterState) (scope : CancelScope)
    (cancelQueue : List TaskID) : CancelScope × List TaskID :=
  if fa.finished then (scope, cancelQueue) else scope.cancel cancelQueue

/-- _FailAfter.end (cancellation.py lines 48-54). -/
def failAfterEnd (fa : FailAfterState) : FailAfterState :=
  { fa with finished := true }

/-- How a with-block terminates, as the deadline helpers observe it: normal
completion, a Cancelled carrying the id of the scope whose cancellation raised
it, or some other exception. -/
inductive BlockOutcome where
  | ok
  | cancelledFrom (scopeId : Nat)
  | otherExc (tag : Nat)
  deriving DecidableEq

/-- fail_after (cancellation.py lines 57-65) at block exit: the finally clause
marks the block finished and the block's outcome propagates unchanged. -/
def failAfterWrap (r : BlockOutcome) (fa : FailAfterState) :
    BlockOutcome × FailAfterState :=
  (r, failAfterEnd fa)

/-- move_on_after (cancellation.py lines 68-73): the block runs under
contextlib.suppress(Cancelled) around fail_after, so any Cancelled outcome is
swallowed into normal completion, whatever scope it originated from. -/
def moveOnAfterWrap (r : BlockOutcome) (fa : FailAfterState) :
    BlockOutcome × FailAfterState :=
  let p := failAfterWrap r fa
  (match p.1 with
   | .cancelledFrom _ => .ok
   | q => q, p.2)

/-- Typed results carried by an IOCompletion, as far as timerio.sleep inspects
them: a SleepResult with its success flag, or anything else. -/
inductive IOResultVal where
  | sleepResult (success : Bool)
  | otherResult (tag : Nat)
  deriving DecidableEq

/-- A generator coroutine step: finished with a value, terminated by an
exception, or suspended on a yielded operation with a continuation taking the
completion sent back in. -/
inductive CoroStep (α : Type) where
  | done (value : α)
  | raised (tag : Nat)
  | yields (op : EventLoopOperation) (k : Option IOResultVal → CoroStep α)

/-- timerio.sleep (timerio/__init__.py lines 12-20): yield Sleep(time) for every
time value, then unwrap the completion into the SleepResult success flag,
raising ValueError on anything else. -/
def sleep (time : Int) : CoroStep Bool :=
  .yields (.ioOp (.sleep time)) (fun c =>
    match c with
    | some (.sleepResult success) => .done success
    | _ => .raised 0)

/-- The operation a coroutine step yields, if it is suspended. -/
def firstOp {α : Type} : CoroStep α → Option EventLoopOperation
  | .yields op _ => some op
  | _ => none

/-- Resume a suspended coroutine step with a completion value. -/
def resume {α : Type} (step : CoroStep α) (c : Option IOResultVal) :
    Option (CoroStep α) :=
  match step with
  | .yields _ k => some (k c)
  | _ => none

/-- Event from sync_primitives.py: the ready flag and the recorded waiter. -/
structure Event where
  ready : Bool
  taskId : Option TaskID
  deriving DecidableEq

/-- Semaphore from sync_primitives.py: the capacity and the internal deque of
Events, one appended per acquire and popped per release. -/
structure Semaphore where
  initialValue : Int
  events : List Event
  deriving DecidableEq

/-- Semaphore.value (sync_primitives.py lines 96-100): len(self._events). -/
def Semaphore.value (s : Semaphore) : Nat :=
  s.events.length

/-- The event append performed by Semaphore.acquire (sync_primitives.py
lines 84-85). -/
def Semaphore.acquireEnqueue (s : Semaphore) : Semaphore :=
  { s with events := s.events ++ [{ ready := false, taskId := none }] }

/-- Semaphore.release (sync_primitives.py lines 91-95): pop the oldest event
(setting it wakes the waiter); none models the RuntimeError when empty. -/
def Semaphore.releaseStep (s : Semaphore) : Option Semaphore :=
  match s.events with
  | [] => none
  | _ :: rest => some { s with events := rest }

/-- Lock from sync_primitives.py: an owner field plus a Semaphore(1). -/
structure Lock where
  owner : Option TaskID
  semaphore : Semaphore
  deriving DecidableEq

/-- Lock.locked (sync_primitives.py lines 67-69): self._semaphore.value == 1. -/
def Lock.locked (lk : Lock) : Bool :=
  lk.semaphore.value == 1

/-- The shared state of a memory object channel (streams/__init__.py): buffer
contents oldest first, the deque's maxlen, both refcounts, and the closed flags
of the send and receive halves in use.  The two Conditions only serialize
access, which the sequential model makes implicit. -/
structure MemChan (T : Type) where
  buffer : List T
  maxlen : Option Nat
  sendStreams : Int
  receiveStreams : Int
  sendClosed : Bool
  recvClosed : Bool

/-- create_memory_object_stream (streams/__init__.py lines 169-198): empty
deque with the given maxlen, both refcounts 1, both halves open. -/
def createMemoryObjectStream (T : Type) (maxBufferSize : Option Nat) :
    MemChan T :=
  { buffer := [], maxlen := maxBufferSize, sendStreams := 1,
    receiveStreams := 1, sendClosed := false, recvClosed := false }

/-- Result of one MemoryObjectSendStream.send: the updated channel, a block on
the send condition (buffer full), or the ClosedResource/BrokenResource errors. -/
inductive SendOutcome (T : Type) where
  | sent (st : MemChan T)
  | blocked
  | closedResource
  | brokenResource

/-- MemoryObjectSendStream.send (streams/__init__.py lines 77-105): raise on a
closed half or when no receive half remains, wait while the predicate is false
(bounded buffer full), else append the item on the right of the deque. -/
def MemChan.send {T : Type} (st : MemChan T) (item : T) : SendOutcome T :=
  if st.sendClosed then .closedResource
  else if st.receiveStreams ≤ 0 then .brokenResource
  else
    match st.maxlen with
    | none => .sent { st with buffer := st.buffer ++ [item] }
    | some m =>
      if st.buffer.length < m then .sent { st with buffer := st.buffer ++ [item] }
      else .blocked

/-- Result of one MemoryObjectReceiveStream.receive: an item with the updated
channel, a block on the receive condition, EndOfStream, or ClosedResource. -/
inductive RecvOutcome (T : Type) where
  | item (x : T) (st : MemChan T)
  | blocked
  | endOfStream
  | closedResource

/-- MemoryObjectReceiveStream.receive with its _predicate (streams/__init__.py
lines 134-159): raise on a closed half; on an empty buffer raise EndOfStream
when no send half remains, else wait; otherwise pop the oldest item. -/
def MemChan.receive {T : Type} (st : MemChan T) : RecvOutcome T :=
  if st.recvClosed then .closedResource
  else
    match st.buffer with
    | [] => if st.sendStreams ≤ 0 then .endOfStream else .blocked
    | x :: rest => .item x { st with buffer := rest }

/-- MemoryObjectSendStream.close (streams/__init__.py lines 52-64): mark the
half closed, drop the send refcount, and (when it reaches zero) notify the
receivers. -/
def MemChan.closeSendHalf {T : Type} (st : MemChan T) : MemChan T :=
  { st with sendClosed := true, sendStreams := st.sendStreams - 1 }

/-- Run a sequence of sends, stopping with none if any send does not complete. -/
def sendAll {T : Type} (st : MemChan T) : List T → Option (MemChan T)
  | [] => some st
  | x :: xs =>
    match st.send x with
    | .sent st2 => sendAll st2 xs
    | _ => none

/-- Perform up to fuel receives, collecting the items observed in order and
returning the first non-item outcome reached (after fuel receives, the outcome
of the next receive). -/
def drain {T : Type} : Nat → MemChan T → List T × RecvOutcome T
  | 0, st => ([], st.receive)
  | n + 1, st =>
    match st.receive with
    | .item x st2 =>
      let p := drain n st2
      (x :: p.1, p.2)
    | out => ([], out)

/-! Concrete states used by counterexamples and witnesses. -/

/-- An outer scope that has been cancelled, with task 1 as member. -/
def outerCancelledScope : CancelScope :=
  { shielded := false, cancelled := true, taskIds := [1] }

/-- A shielded, uncancelled scope strictly inside the cancelled one. -/
def midShieldScope : CancelScope :=
  { shielded := true, cancelled := false, taskIds := [1] }

/-- The innermost scope of task 1: plain and uncancelled. -/
def innerPlainScope : CancelScope :=
  { shielded := false, cancelled := false, taskIds := [1] }

/-- Task 1 parked (yielded Park), with a shielded scope strictly between its
innermost scope and the cancelled outer scope. -/
def parkedShieldedTask : Task :=
  { taskId := 1
    cancelScopes := [outerCancelledScope, midShieldScope, innerPlainScope]
    waiting := true
    awaitingOperation := some .park
    started := true
    inFlightOpId := none }

/-- Task 1 waiting on kernel I/O (a sleep with in-flight op id 9), with the same
shield-between-cancelled scope stack. -/
def ioShieldedTask : Task :=
  { taskId := 1
    cancelScopes := [outerCancelledScope, midShieldScope, innerPlainScope]
    waiting := true
    awaitingOperation := some (.ioOp (.sleep 5))
    started := true
    inFlightOpId := some 9 }

/-- Task 2 waiting on task 3. -/
def waitTaskA : Task :=
  { taskId := 2
    cancelScopes := [innerPlainScope]
    waiting := true
    awaitingOperation := some (.waitsOn [3])
    started := true
    inFlightOpId := none }

/-- Task 3 waiting on task 2. -/
def waitTaskB : Task :=
  { taskId := 3
    cancelScopes := [innerPlainScope]
    waiting := true
    awaitingOperation := some (.waitsOn [2])
    started := true
    inFlightOpId := none }

/-- Task 4 submitted on kernel I/O with in-flight op id 7. -/
def ioWaitingTask : Task :=
  { taskId := 4
    cancelScopes := [innerPlainScope]
    waiting := true
    awaitingOperation := some (.ioOp (.sleep 5))
    started := true
    inFlightOpId := some 7 }

/-- A completion for op id 7. -/
def completionSeven : IOCompletion := { userData := 7, ecanceled := false }

/-- A second completion, for op id 8, already available in the same tick. -/
def completionEight : IOCompletion := { userData := 8, ecanceled := false }

/-- A scope that is already cancelled, with task 5 as member. -/
def cancelledMemberScope : CancelScope :=
  { shielded := false, cancelled := true, taskIds := [5] }

/-- A task group that has initiated cancellation (its scope is cancelled, as
after TaskGroup.exit cancels unfinished children) but has no recorded error. -/
def groupCancelledNoErrors : TaskGroupSt :=
  { errors := [], cancelScope := { shielded := false, cancelled := true, taskIds := [3] } }

/-- A task group that has already recorded one error. -/
def groupWithOneError : TaskGroupSt :=
  { errors := [TaskExc.other 7],
    cancelScope := { shielded := false, cancelled := true, taskIds := [3] } }

/-- The calling task's pre-existing root cancel scope (member: task 7). -/
def rootScope : CancelScope :=
  { shielded := false, cancelled := false, taskIds := [7] }

/-- A lock held by task 1 while a second acquire is queued behind it: the
semaphore's event deque has length 2. -/
def lockHeldWithWaiter : Lock :=
  { owner := some 1
    semaphore :=
      { initialValue := 1
        events := [{ ready := false, taskId := none },
                   { ready := false, taskId := some 2 }] } }

/-- A bounded channel (maxlen 2) after the items 10 and 20 have been sent. -/
def boundedLoadedChan : MemChan Nat :=
  { buffer := [10, 20], maxlen := some 2, sendStreams := 1,
    receiveStreams := 1, sendClosed := false, recvClosed := false }

/-! Helper lemmas shared between claims. -/

/-- List.find? returns the head of the first segment element satisfying the
predicate when everything before it fails the predicate. -/
theorem find_first_of_prefix {p : CancelScope → Bool} (pre post : List CancelScope)
    (s : CancelScope) (hpre : ∀ u ∈ pre, p u = false) (hs : p s = true) :
    (pre ++ s :: post).find? p = some s := by
  induction pre with
  | nil => simp [List.find?, hs]
  | cons u rest ih =>
    have hu : p u = false := hpre u (by simp)
    simp only [List.cons_append, List.find?, hu]
    exact ih (fun v hv => hpre v (by simp [hv]))

/-- The register-step walk never throws when every scope before the first
shielded one is uncancelled and that shielded scope is itself uncancelled. -/
theorem registerWalk_shield_first (op : Option EventLoopOperation)
    (pre post : List CancelScope) (s : CancelScope)
    (hpre : ∀ u ∈ pre, u.cancelled = false ∧ u.shielded = false)
    (hs : s.shielded = true) (hsc : s.cancelled = false) :
    registerWalkThrows op (pre ++ s :: post) = false := by
  induction pre with
  | nil => simp [registerWalkThrows, hsc, hs]
  | cons u rest ih =>
    obtain ⟨hc, hsh⟩ := hpre u (by simp)
    simp only [List.cons_append, registerWalkThrows, hc, hsh]
    simpa using ih (fun v hv => hpre v (by simp [hv]))

/-! Claim theorems. -/

/-- C1 (amended): for a task whose scope stack, walked from the innermost scope
outwards, reaches a shielded uncancelled scope before any cancelled or shielded
scope, and whose awaiting operation is a kernel I/O operation, the cancel-queue
drain takes no action on it (in particular it registers no kernel Cancel for
the in-flight operation) and the register step does not throw Cancelled into
it.  The amendment to the original claim: this suppression holds for the I/O
and register paths only — a task in a Park state and a task waiting on other
tasks are decided before any scope is inspected (see claim1_counterexample). -/
theorem claim1_shield_suppresses_io_delivery (t : Task)
    (pre post : List CancelScope) (s : CancelScope)
    (hdecomp : t.cancelScopes.reverse = pre ++ s :: post)
    (hpre : ∀ u ∈ pre, u.cancelled = false ∧ u.shielded = false)
    (hs : s.shielded = true) (hsc : s.cancelled = false)
    (op : IOOp) (hio : t.awaitingOperation = some (.ioOp op)) :
    cancelDeliveryAction t = CancelAction.nothing ∧
    registerThrowDecision t = false := by
  have hwalk : scopeWalk t.cancelScopes = some s := by
    unfold scopeWalk
    rw [hdecomp]
    refine find_first_of_prefix pre post s (fun u hu => ?_) ?_
    · obtain ⟨h1, h2⟩ := hpre u hu
      simp [h1, h2]
    · simp [hs]
  constructor
  · simp only [cancelDeliveryAction, hio]
    cases hw : t.waiting
    · simp
    · cases hf : t.inFlightOpId with
      | none => simp
      | some opId => simp [hwalk, hsc]
  · unfold registerThrowDecision
    rw [hdecomp]
    exact registerWalk_shield_first _ pre post s hpre hs hsc

/-- Witness for C1: task 1 awaits a kernel sleep (in-flight op 9) under the
stack [outer cancelled, middle shielded, inner plain]; neither the drain nor
the register step delivers cancellation to it. -/
theorem claim1_shield_suppresses_io_delivery_witness :
    cancelDeliveryAction ioShieldedTask = CancelAction.nothing ∧
    registerThrowDecision ioShieldedTask = false :=
  claim1_shield_suppresses_io_delivery ioShieldedTask
    [innerPlainScope] [outerCancelledScope] midShieldScope
    (by decide) (by decide) rfl rfl (IOOp.sleep 5) rfl

/-- Counterexample to C1 as stated: the same shield-between-cancelled stack
does not protect a parked task.  Task 1 is parked, its innermost scope is
uncancelled, a shielded uncancelled scope sits strictly between it and the
cancelled outer scope, yet the cancel-queue drain throws Cancelled into its
generator (loop.py lines 69-73 act on Park before looking at any scope). -/
theorem claim1_park_counterexample :
    parkedShieldedTask.cancelScopes.reverse
        = [innerPlainScope, midShieldScope, outerCancelledScope] ∧
    innerPlainScope.cancelled = false ∧ innerPlainScope.shielded = false ∧
    midShieldScope.shielded = true ∧ midShieldScope.cancelled = false ∧
    outerCancelledScope.cancelled = true ∧
    parkedShieldedTask.awaitingOperation = some EventLoopOperation.park ∧
    cancelDeliveryAction parkedShieldedTask = CancelAction.throwCancelled := by
  decide

/-- C2 (code bug): move_on_after is contextlib.suppress(Cancelled) around
fail_after, so every Cancelled outcome of the block — whichever scope's
cancellation raised it — is swallowed into normal completion.  The repository's
own test test_outer_scope_cancellation_propagates expects the outer Cancelled
to be re-raised, which this code cannot do. -/
theorem claim2_move_on_after_swallows_all (scopeId : Nat) (fa : FailAfterState) :
    (moveOnAfterWrap (BlockOutcome.cancelledFrom scopeId) fa).1
        = BlockOutcome.ok := by
  rfl

/-- C3 (amended): set_error appends every non-Cancelled exception and cancels
the group's scope; and a Cancelled is dropped exactly when the error list is
already non-empty.  The amendment: the code keys suppression on a previously
recorded error, not on the group having initiated cancellation, so a Cancelled
arriving while the error list is empty is appended even if the group's own
scope is already cancelled (see claim3_counterexample). -/
theorem claim3_set_error (g : TaskGroupSt) (q : List TaskID) (e : TaskExc) :
    (e.isCancelled = false →
      (g.setError q e).1.errors = g.errors ++ [e] ∧
      (g.setError q e).1.cancelScope.cancelled = true ∧
      (g.setError q e).2 = q ++ g.cancelScope.taskIds) ∧
    (e.isCancelled = true → g.errors ≠ [] → g.setError q e = (g, q)) := by
  constructor
  · intro he
    simp [TaskGroupSt.setError, he, CancelScope.cancel]
  · intro he hne
    simp [TaskGroupSt.setError, he, List.isEmpty_iff, hne]

/-- Witness for C3: a group with one recorded error drops a later Cancelled;
a group with no recorded error appends a non-Cancelled exception. -/
theorem claim3_set_error_witness :
    groupWithOneError.setError [] TaskExc.cancelled = (groupWithOneError, []) ∧
    (groupCancelledNoErrors.setError [] (TaskExc.other 2)).1.errors
        = [TaskExc.other 2] := by
  refine ⟨(claim3_set_error groupWithOneError [] TaskExc.cancelled).2 rfl (by decide), ?_⟩
  exact ((claim3_set_error groupCancelledNoErrors [] (TaskExc.other 2)).1 rfl).1

/-- Counterexample to C3 as stated: a group whose own scope is already
cancelled (as after TaskGroup.exit cancels unfinished children) but whose
error list is empty does not suppress a subsequently reported Cancelled: the
Cancelled is appended and appears in the aggregate raised on exit.  The
repository's test test_raises_exception_group_from_group asserts exactly this
aggregate-of-one-Cancelled behaviour. -/
theorem claim3_counterexample :
    groupCancelledNoErrors.cancelScope.cancelled = true ∧
    groupCancelledNoErrors.errors = [] ∧
    (groupCancelledNoErrors.setError [] TaskExc.cancelled).1.errors
        = [TaskExc.cancelled] ∧
    (groupCancelledNoErrors.setError [] TaskExc.cancelled).1.exitAggregate
        = some [TaskExc.cancelled] := by
  decide

/-- C4 (confirmed): in the reap step, when every task is waiting and every
task's awaiting operation is a WaitsOn or a Park (no task has pending kernel
I/O), the loop raises the Deadlock error rather than calling the blocking
wait(), whatever completions the kernel might hold. -/
theorem claim4_deadlock_detected (tasks : List Task)
    (available : List IOCompletion)
    (h1 : tasks.all (·.waiting) = true)
    (h2 : tasks.all (fun t => isWaitsOnOrPark t.awaitingOperation) = true) :
    getCompletedOperations tasks available = some ReapOutcome.deadlock := by
  simp [getCompletedOperations, h1, h2]

/-- Witness for C4: two tasks waiting on each other deadlock the loop. -/
theorem claim4_deadlock_detected_witness :
    getCompletedOperations [waitTaskA, waitTaskB] [] = some ReapOutcome.deadlock :=
  claim4_deadlock_detected [waitTaskA, waitTaskB] [] (by decide) (by decide)

/-- C5 (amended): when every task is waiting and at least one awaits kernel
I/O, the reap step calls wait() for exactly one completion and returns only
that completion; the peek-until-empty drain runs only on the branch where some
task is not waiting.  This amends the claim that wait() is followed by repeated
peek() calls in the all-waiting branch. -/
theorem claim5_wait_returns_single (tasks : List Task) (c : IOCompletion)
    (rest : List IOCompletion)
    (h1 : tasks.all (·.waiting) = true)
    (h2 : tasks.all (fun t => isWaitsOnOrPark t.awaitingOperation) = false) :
    getCompletedOperations tasks (c :: rest) = some (ReapOutcome.reaped [c]) := by
  simp [getCompletedOperations, h1, h2]

/-- Witness for C5: with one I/O-waiting task and two completions available,
the all-waiting branch returns just the first completion. -/
theorem claim5_wait_returns_single_witness :
    getCompletedOperations [ioWaitingTask] [completionSeven, completionEight]
        = some (ReapOutcome.reaped [completionSeven]) :=
  claim5_wait_returns_single [ioWaitingTask] completionSeven [completionEight]
    (by decide) (by decide)

/-- Counterexample to C5 as stated: two completions are already available, one
I/O-waiting task makes every task Submitted, yet the reap step collects only
the single completion returned by wait() and not the second one a peek() loop
would have drained. -/
theorem claim5_counterexample :
    getCompletedOperations [ioWaitingTask] [completionSeven, completionEight]
        = some (ReapOutcome.reaped [completionSeven]) ∧
    ReapOutcome.reaped [completionSeven]
        ≠ ReapOutcome.reaped [completionSeven, completionEight] := by
  decide

/-- C6 (code bug): fail_after creates no scope of its own.  _FailAfter.start
captures the calling task's current (innermost, pre-existing) cancel scope and
the background task cancels that captured scope when the block has not
finished: here the task's root scope itself is captured and cancelled, queuing
the task for cancellation delivery.  The repository's tests bind a scope from
fail_after(...) and pass shield=True to these helpers, neither of which this
code supports. -/
theorem claim6_fail_after_uses_existing_scope :
    (failAfterStart 1 [rootScope]).2 = some rootScope ∧
    (failAfterStart 1 [rootScope]).1.finished = false ∧
    (cancellationTaskFires (failAfterStart 1 [rootScope]).1 rootScope []).1.cancelled
        = true ∧
    (cancellationTaskFires (failAfterStart 1 [rootScope]).1 rootScope []).2 = [7] := by
  decide

/-- C7 (amended): cancelling an already-cancelled scope leaves the scope value
itself unchanged but appends all member task ids to the cancel queue again, so
the call is a genuine no-op only when the scope has no member tasks. -/
theorem claim7_cancel_again (s : CancelScope) (q : List TaskID)
    (h : s.cancelled = true) :
    (s.cancel q).1 = s ∧ (s.cancel q).2 = q ++ s.taskIds ∧
    (s.taskIds = [] → s.cancel q = (s, q)) := by
  obtain ⟨sh, c, ids⟩ := s
  subst h
  refine ⟨rfl, rfl, ?_⟩
  rintro rfl
  simp [CancelScope.cancel]

/-- Witness for C7: re-cancelling the already-cancelled scope with member task
5 leaves the scope unchanged and appends 5 to the empty cancel queue. -/
theorem claim7_cancel_again_witness :
    (cancelledMemberScope.cancel []).1 = cancelledMemberScope ∧
    (cancelledMemberScope.cancel []).2 = [5] := by
  have h := claim7_cancel_again cancelledMemberScope [] rfl
  exact ⟨h.1, h.2.1⟩

/-- Counterexample to C7 as stated: the scope is already cancelled, yet a
second cancel() extends the loop's cancel queue with its member task id, so
the queue is not the same as if the call had not happened. -/
theorem claim7_counterexample :
    cancelledMemberScope.cancelled = true ∧
    (cancelledMemberScope.cancel []).2 = [5] ∧
    ([5] : List TaskID) ≠ [] := by
  decide

/-- C8 (amended): sleep(time) yields the kernel timeout operation Sleep(time)
for every time value, including 0, and resuming it with a SleepResult returns
its success flag.  This amends the claim that sleep(0) collapses to a
Checkpoint: timerio.sleep has no special case for 0. -/
theorem claim8_sleep_yields_timeout (time : Int) :
    firstOp (sleep time) = some (EventLoopOperation.ioOp (IOOp.sleep time)) ∧
    resume (sleep time) (some (IOResultVal.sleepResult true))
        = some (CoroStep.done true) :=
  ⟨rfl, rfl⟩

/-- Counterexample to C8 as stated: the first operation yielded by sleep(0) is
the kernel timeout Sleep(0), not a Checkpoint. -/
theorem claim8_counterexample :
    firstOp (sleep 0) = some (EventLoopOperation.ioOp (IOOp.sleep 0)) ∧
    firstOp (sleep 0) ≠ some EventLoopOperation.checkpoint := by
  exact ⟨rfl, by decide⟩

/-- On an unbounded open channel with a live receive half, every send completes
and appends its item on the right of the buffer. -/
theorem sendAll_unbounded {T : Type} (items : List T) :
    ∀ st : MemChan T, st.maxlen = none → st.sendClosed = false →
      0 < st.receiveStreams →
      sendAll st items = some { st with buffer := st.buffer ++ items } := by
  induction items with
  | nil => intro st _ _ _; simp [sendAll]
  | cons x xs ih =>
    intro st h1 h2 h3
    have hnb : ¬st.receiveStreams ≤ 0 := by omega
    have hsend : st.send x = .sent { st with buffer := st.buffer ++ [x] } := by
      simp [MemChan.send, h1, h2, hnb]
    have := ih { st with buffer := st.buffer ++ [x] } h1 h2 h3
    simp only [sendAll, hsend, this]
    simp

/-- Once no send half remains, receives return the buffered items oldest first
and then EndOfStream. -/
theorem drain_closed {T : Type} (buf : List T) :
    ∀ st : MemChan T, st.buffer = buf → st.sendStreams ≤ 0 →
      st.recvClosed = false →
      drain buf.length st = (buf, RecvOutcome.endOfStream) := by
  induction buf with
  | nil =>
    intro st hb hs hc
    simp [drain, MemChan.receive, hc, hb, hs]
  | cons x rest ih =>
    intro st hb hs hc
    have hrecv : st.receive = .item x { st with buffer := rest } := by
      simp [MemChan.receive, hc, hb]
    have := ih { st with buffer := rest } rfl hs hc
    simp [drain, hrecv, this]

/-- A send that completes appends its item on the right of the buffer and
changes nothing else, bounded or not. -/
theorem send_sent {T : Type} (st st2 : MemChan T) (x : T)
    (h : st.send x = SendOutcome.sent st2) :
    st2 = { st with buffer := st.buffer ++ [x] } := by
  unfold MemChan.send at h
  split at h
  · cases h
  · split at h
    · cases h
    · split at h
      · cases h
        rfl
      · split at h
        · cases h
          rfl
        · cases h

/-- When a whole sequence of sends completes, the resulting channel is the
original one with the items appended in order and every other field
unchanged. -/
theorem sendAll_some {T : Type} (items : List T) :
    ∀ st st2 : MemChan T, sendAll st items = some st2 →
      st2 = { st with buffer := st.buffer ++ items } := by
  induction items with
  | nil =>
    intro st st2 h
    simp only [sendAll, Option.some.injEq] at h
    simp [← h]
  | cons x xs ih =>
    intro st st2 h
    simp only [sendAll] at h
    cases hs : st.send x with
    | sent stMid =>
      simp only [hs] at h
      have hmid := send_sent st stMid x hs
      have hrest := ih stMid st2 h
      subst hmid
      simpa using hrest
    | blocked =>
      simp only [hs] at h
      exact Option.noConfusion h
    | closedResource =>
      simp only [hs] at h
      exact Option.noConfusion h
    | brokenResource =>
      simp only [hs] at h
      exact Option.noConfusion h

/-- C9 (confirmed): for every memory object channel, whatever its
max_buffer_size (bounded or unbounded): if the items of a list are sent on the
send half and those sends all complete, and the only send half is then closed,
the buffer holds exactly those items and the receiver observes them in FIFO
order, after which the next receive raises EndOfStream. -/
theorem claim9_channel_fifo_then_eos {T : Type} (maxBufferSize : Option Nat)
    (items : List T) (st : MemChan T)
    (hsend : sendAll (createMemoryObjectStream T maxBufferSize) items = some st) :
    st.buffer = items ∧
    drain items.length st.closeSendHalf = (items, RecvOutcome.endOfStream) := by
  have hst := sendAll_some items (createMemoryObjectStream T maxBufferSize) st hsend
  subst hst
  refine ⟨by simp [createMemoryObjectStream], ?_⟩
  exact drain_closed items _ (by simp [createMemoryObjectStream, MemChan.closeSendHalf])
    (by norm_num [createMemoryObjectStream, MemChan.closeSendHalf]) rfl

/-- Witness for C9: on the bounded channel with maxlen 2, sending 10 then 20
completes; after the send half closes the receiver gets 10 then 20, and the
next receive raises EndOfStream. -/
theorem claim9_channel_fifo_then_eos_witness :
    boundedLoadedChan.buffer = [10, 20] ∧
    drain 2 boundedLoadedChan.closeSendHalf = ([10, 20], RecvOutcome.endOfStream) :=
  claim9_channel_fifo_then_eos (some 2) [10, 20] boundedLoadedChan rfl

/-- C10 (confirmed): Lock.locked is the test that the internal semaphore's
event queue has length exactly 1; with two or more queued acquire entries
(holder plus at least one blocked waiter) it therefore returns false. -/
theorem claim10_locked_iff_queue_one (lk : Lock) :
    (lk.locked = true ↔ lk.semaphore.events.length = 1) ∧
    (2 ≤ lk.semaphore.events.length → lk.locked = false) := by
  constructor
  · simp [Lock.locked, Semaphore.value]
  · intro h
    simp [Lock.locked, Semaphore.value]
    omega

/-- Witness for C10: a lock held by task 1 with one more acquire queued behind
it reports locked() = false. -/
theorem claim10_locked_iff_queue_one_witness :
    lockHeldWithWaiter.locked = false :=
  (claim10_locked_iff_queue_one lockHeldWithWaiter).2 (by decide)

end OneRing
